import Mathlib

set_option maxHeartbeats 1000000

/- Shallow embedding of the conditional validation engine of the ASIC
business-name registration lodgement models: the record types of
`backend/apps/common/models.py` that the engine reads, and the validators of
`backend/apps/bn_lodge_application/models.py`
(`PartnerAssociateLodgeType.validate_representative_exclusive`,
`AssociateLodgeType.partner_classification`,
`AssociateLodgeType.validate_associate_classification_rules`,
`BusinessEntityLodgeType.validate_owner_type_conditional_rules`,
`BusinessEntityLodgeType.validate_cross_field_relationships`).
Each pydantic `model_validator` is translated as a pure function returning
`Except VErr`; a Python `raise ValueError("CODE: ...")` becomes
`.error <code>`, and the validator's trailing `return self` becomes mapping
the successful check result back to the record. -/

deriving instance DecidableEq for Except

/-- Python truthiness of an optional string field: `None` and the empty
string are falsy, every other string is truthy. -/
def strTruthy : Option String → Bool
  | none => false
  | some s => !s.isEmpty

/-- Python truthiness of an optional list field: `None` and the empty list
are falsy (`if not self.xs or len(self.xs) == 0` style checks). -/
def listTruthy {α : Type} : Option (List α) → Bool
  | none => false
  | some l => !l.isEmpty

/-- Drop leading whitespace characters from a character list. -/
def dropWs : List Char → List Char
  | [] => []
  | c :: cs => if c.isWhitespace then dropWs cs else c :: cs

/-- Python's `str.strip()`: remove surrounding whitespace. Implemented by
structural recursion over the character list so that it evaluates in the
kernel (whitespace is the ASCII whitespace class). -/
def pyStrip (s : String) : String :=
  ⟨(dropWs (dropWs s.data).reverse).reverse⟩

/-- `PersonNameLodgeType` (common/models.py): given names and family name
required, other given names optional. -/
structure PersonNameLodgeType where
  givenNames : String
  otherGivenNames : Option String := none
  familyName : String
deriving DecidableEq, Repr

/-- `IndividualLodgeType` (common/models.py). The conditional validation
engine only reads the presence of the record and its `name` fields; the
leaf-level birth-details/address constraints of the source are field-format
validation outside the engine modelled here, and no embedded validator reads
those fields. -/
structure IndividualLodgeType where
  name : PersonNameLodgeType
  emailAddress : Option String := none
deriving DecidableEq, Repr

/-- `OrganisationLodgeType` (common/models.py): name required, ACN and
email optional. -/
structure OrganisationLodgeType where
  name : String
  acn : Option String := none
  emailAddress : Option String := none
deriving DecidableEq, Repr

/-- `Abn` (common/models.py): wrapper model for an 11-digit ABN string. -/
structure Abn where
  abn : String
deriving DecidableEq, Repr

/-- `AbnReferenceNumber` (common/models.py). -/
structure AbnReferenceNumber where
  referenceNumber : String
deriving DecidableEq, Repr

/-- `AbrEntity` (common/models.py): all fields optional; `abnExemption`
defaults to `False`. `entityType` is an enum code in the source, read by no
validator modelled here, kept as a plain string code. -/
structure AbrEntity where
  abn : Option Abn := none
  referenceNumber : Option AbnReferenceNumber := none
  entityName : Option String := none
  entityType : Option String := none
  abnExemption : Option Bool := some false
deriving DecidableEq, Repr

/-- Validation error codes of the engine. Each constructor is one
`raise ValueError("CODE: ...")` site; the wrapped codes carry the 1-based
index and, where the source interpolates the inner exception text into the
message, the inner error. -/
inductive VErr where
  | PARTNER_ASSOC_REQUIRED
  | PARTNER_ASSOC_EXCLUSIVE
  | PARTNER_ASSOC_ORG_ACN
  | ASSOC_STRUCTURE
  | IND_ASSOC_NO_REPS
  | IND_ASSOC_ABN
  | INC_ASSOC_NO_REPS
  | INC_ASSOC_ACN
  | INC_ASSOC_ABN
  | UNINC_ASSOC_REPS_REQUIRED
  | UNINC_ASSOC_NO_ACN
  | UNINC_ASSOC_ABN
  | UNINC_REP_INVALID (index : Nat) (inner : VErr)
  | IND_ABR_REQUIRED
  | IND_INDIVIDUAL_REQUIRED
  | IND_NO_ASSOCIATES
  | IND_NO_ORGANISATION
  | IB_ABR_REQUIRED
  | IB_ORGANISATION_REQUIRED
  | IB_NO_ASSOCIATES
  | IB_NO_INDIVIDUAL
  | IB_ACN_REQUIRED
  | PTSH_ABR_REQUIRED
  | PTSH_ORGANISATION_REQUIRED
  | PTSH_PARTNERS_REQUIRED
  | PTSH_MAX_PARTNERS
  | PTSH_NO_INDIVIDUAL
  | PTSH_NO_ACN
  | USTR_ABR_REQUIRED
  | USTR_ORGANISATION_REQUIRED
  | USTR_TRUSTEES_REQUIRED
  | USTR_NO_INDIVIDUAL
  | JV_ORGANISATION_REQUIRED
  | JV_PARTNERS_REQUIRED
  | JV_MIN_PARTNERS
  | JV_ABN_OR_EXEMPT
  | JV_ABN_AND_EXEMPT_CONFLICT
  | JV_NO_ACN
  | JV_NO_INDIVIDUAL
  | JV_EXEMPT_PARTNER_ABN (index : Nat)
  | PARTNER_INVALID (context : String) (index : Nat) (inner : VErr)
  | NAME_MISMATCH
  | INDIVIDUAL_NAME_MISMATCH
deriving DecidableEq, Repr

/-- `PartnerAssociateLodgeType` (bn_lodge_application/models.py): an
organisation representative for an unincorporated partner, wrapping an
optional individual and an optional organisation. -/
structure PartnerAssociateLodgeType where
  individual : Option IndividualLodgeType := none
  organisation : Option OrganisationLodgeType := none
deriving DecidableEq, Repr

/-- Truthiness of `self.organisation and self.organisation.acn` for an
optional organisation field. -/
def orgAcnTruthy : Option OrganisationLodgeType → Bool
  | none => false
  | some o => strTruthy o.acn

/-- `PartnerAssociateLodgeType.validate_representative_exclusive`
(bn_lodge_application/models.py lines 21-37): exactly one representative
kind, and an organisation representative must have an ACN. -/
def PartnerAssociateLodgeType.validate_representative_exclusive
    (p : PartnerAssociateLodgeType) : Except VErr PartnerAssociateLodgeType :=
  if !p.individual.isSome && !p.organisation.isSome then
    .error .PARTNER_ASSOC_REQUIRED
  else if p.individual.isSome && p.organisation.isSome then
    .error .PARTNER_ASSOC_EXCLUSIVE
  else if p.organisation.isSome && !orgAcnTruthy p.organisation then
    .error .PARTNER_ASSOC_ORG_ACN
  else
    .ok p

/-- `AssociateLodgeType` (bn_lodge_application/models.py): ABR entity
required; exactly one of individual/organisation is expected; optional list
of representatives; optional start and end dates (calendar dates are read by
no validator and abstracted as integers). -/
structure AssociateLodgeType where
  abrEntity : AbrEntity
  individual : Option IndividualLodgeType := none
  organisation : Option OrganisationLodgeType := none
  partnerAssociate : Option (List PartnerAssociateLodgeType) := none
  startDate : Option Int := none
  endDate : Option Int := none
deriving DecidableEq, Repr

/-- `AssociateLodgeType.partner_classification` (bn_lodge_application/models.py
lines 61-78): the computed classification of an associate, raising
`ASSOC_STRUCTURE` when neither or both of individual/organisation are
present. -/
def AssociateLodgeType.partner_classification
    (a : AssociateLodgeType) : Except VErr String :=
  if a.individual.isSome && !a.organisation.isSome then
    .ok "individual"
  else if a.organisation.isSome && !a.individual.isSome then
    if orgAcnTruthy a.organisation then .ok "incorporated"
    else .ok "unincorporated"
  else
    .error .ASSOC_STRUCTURE

/-- Classification written from the spec's words (spec section 4.2): a
function of the three facts individual-present, organisation-present,
organisation.acn-present, raising `ASSOC_STRUCTURE` when both or neither of
individual/organisation are present. Used only to compare against the
source-derived `AssociateLodgeType.partner_classification`. -/
def classifySpec : Bool → Bool → Bool → Except VErr String
  | true, false, _ => .ok "individual"
  | false, true, true => .ok "incorporated"
  | false, true, false => .ok "unincorporated"
  | true, true, _ => .error .ASSOC_STRUCTURE
  | false, false, _ => .error .ASSOC_STRUCTURE

/-- Loop of `validate_associate_classification_rules` lines 123-127: each
representative is re-validated (its only model validator is
`validate_representative_exclusive`); the first failure at 0-based position
`i` is wrapped as `UNINC_REP_INVALID` with 1-based index `i + 1`, carrying
the inner error whose text the source interpolates into the message. -/
def validate_reps_loop : Nat → List PartnerAssociateLodgeType → Except VErr Unit
  | _, [] => .ok ()
  | i, r :: rs =>
    match r.validate_representative_exclusive with
    | .error e => .error (.UNINC_REP_INVALID (i + 1) e)
    | .ok _ => validate_reps_loop (i + 1) rs

/-- Checks of `AssociateLodgeType.validate_associate_classification_rules`
(bn_lodge_application/models.py lines 86-129), in source order; the
classification itself may raise `ASSOC_STRUCTURE`. -/
def associate_classification_checks (a : AssociateLodgeType) : Except VErr Unit :=
  match a.partner_classification with
  | .error e => .error e
  | .ok classification =>
    if classification = "individual" then
      if listTruthy a.partnerAssociate then .error .IND_ASSOC_NO_REPS
      else if !a.abrEntity.abn.isSome then .error .IND_ASSOC_ABN
      else .ok ()
    else if classification = "incorporated" then
      if listTruthy a.partnerAssociate then .error .INC_ASSOC_NO_REPS
      else if a.organisation.isSome && orgAcnTruthy a.organisation then .error .INC_ASSOC_ACN
      else if !a.abrEntity.abn.isSome then .error .INC_ASSOC_ABN
      else .ok ()
    else if classification = "unincorporated" then
      if !listTruthy a.partnerAssociate then .error .UNINC_ASSOC_REPS_REQUIRED
      else if a.organisation.isSome && orgAcnTruthy a.organisation then .error .UNINC_ASSOC_NO_ACN
      else if !a.abrEntity.abn.isSome then .error .UNINC_ASSOC_ABN
      else validate_reps_loop 0 (a.partnerAssociate.getD [])
    else .ok ()

/-- `AssociateLodgeType.validate_associate_classification_rules`: runs the
classification-specific checks and returns `self` unchanged on success. -/
def AssociateLodgeType.validate_associate_classification_rules
    (a : AssociateLodgeType) : Except VErr AssociateLodgeType :=
  (associate_classification_checks a).map fun _ => a

/-- Nested validation pass performed by pydantic when an associate is
validated from data (`partner.model_validate(partner.model_dump())`): each
entry of `partnerAssociate` is validated by its own model validator before
the associate's model validator runs, and a failure surfaces unwrapped. -/
def reps_nested_checks : List PartnerAssociateLodgeType → Except VErr Unit
  | [] => .ok ()
  | r :: rs =>
    match r.validate_representative_exclusive with
    | .error e => .error e
    | .ok _ => reps_nested_checks rs

/-- Full validation of an `AssociateLodgeType` from data: nested
representative validation first, then the associate's own model
validator. -/
def AssociateLodgeType.model_validate
    (a : AssociateLodgeType) : Except VErr AssociateLodgeType :=
  match reps_nested_checks (a.partnerAssociate.getD []) with
  | .error e => .error e
  | .ok _ => a.validate_associate_classification_rules

/-- Modelled from the spec: the `OwnerType` enumeration. The source imports
`OwnerType` from `apps.common.enums.asic_enums`, where no definition of that
name appears among the provided sources (the sibling `ASICEntityType`
carries the same five codes); the spec fixes the value set as
IND, IB, PTSH, USTR, JV. -/
inductive OwnerType where
  | IND
  | IB
  | PTSH
  | USTR
  | JV
deriving DecidableEq, Repr

/-- `BusinessEntityLodgeType` (bn_lodge_application/models.py): the root
record; `abnExemption` defaults to `False`; the review date is read by no
validator and abstracted as an integer. -/
structure BusinessEntityLodgeType where
  ownerType : OwnerType
  abrEntity : Option AbrEntity := none
  abnExemption : Option Bool := some false
  individual : Option IndividualLodgeType := none
  organisation : Option OrganisationLodgeType := none
  associate : Option (List AssociateLodgeType) := none
  dateReview : Option Int := none
deriving DecidableEq, Repr

/-- Truthiness of `self.abrEntity and self.abrEntity.abn` (line 253). -/
def jvHasAbn (e : BusinessEntityLodgeType) : Bool :=
  match e.abrEntity with
  | none => false
  | some abr => abr.abn.isSome

/-- `self.abnExemption is True` (line 254): exactly the value `True`. -/
def jvIsExempt (e : BusinessEntityLodgeType) : Bool :=
  e.abnExemption = some true

/-- Loop of lines 268-271: when a JV is ABN exempt every partner must have
an ABN; `abrEntity` is a required field of `AssociateLodgeType` and a model
instance is always truthy in Python, so the source condition
`not partner.abrEntity or not partner.abrEntity.abn` reduces to the ABN
being absent. -/
def jv_exempt_partner_check : Nat → List AssociateLodgeType → Except VErr Unit
  | _, [] => .ok ()
  | i, p :: ps =>
    if p.abrEntity.abn.isNone then .error (.JV_EXEMPT_PARTNER_ABN (i + 1))
    else jv_exempt_partner_check (i + 1) ps

/-- Loop of `_validate_partners_with_dynamic_classification` (lines 296-310):
each partner is fully re-validated (`partner.model_validate(...)`); the first
failure at 0-based position `i` is wrapped with the context and the 1-based
index `i + 1`. The context-specific branches for PTSH and JV are `pass` in
the source. -/
def validate_partners_loop (context : String) :
    Nat → List AssociateLodgeType → Except VErr Unit
  | _, [] => .ok ()
  | i, p :: ps =>
    match p.model_validate with
    | .error e => .error (.PARTNER_INVALID context (i + 1) e)
    | .ok _ => validate_partners_loop context (i + 1) ps

/-- `BusinessEntityLodgeType._validate_partners_with_dynamic_classification`
(lines 289-310): returns immediately when `self.associate` is falsy. -/
def validate_partners_with_dynamic_classification
    (e : BusinessEntityLodgeType) (context : String) : Except VErr Unit :=
  match e.associate with
  | none => .ok ()
  | some l => validate_partners_loop context 0 l

/-- RULE SET 1 of `validate_owner_type_conditional_rules`: IND (lines
189-197). -/
def indChecks (e : BusinessEntityLodgeType) : Except VErr Unit :=
  if !e.abrEntity.isSome then .error .IND_ABR_REQUIRED
  else if !e.individual.isSome then .error .IND_INDIVIDUAL_REQUIRED
  else if listTruthy e.associate then .error .IND_NO_ASSOCIATES
  else if e.organisation.isSome then .error .IND_NO_ORGANISATION
  else .ok ()

/-- RULE SET 2 of `validate_owner_type_conditional_rules`: IB (lines
200-210). -/
def ibChecks (e : BusinessEntityLodgeType) : Except VErr Unit :=
  if !e.abrEntity.isSome then .error .IB_ABR_REQUIRED
  else if !e.organisation.isSome then .error .IB_ORGANISATION_REQUIRED
  else if listTruthy e.associate then .error .IB_NO_ASSOCIATES
  else if e.individual.isSome then .error .IB_NO_INDIVIDUAL
  else if e.organisation.isSome && !orgAcnTruthy e.organisation then .error .IB_ACN_REQUIRED
  else .ok ()

/-- RULE SET 3 of `validate_owner_type_conditional_rules`: PTSH (lines
213-230). -/
def ptshChecks (e : BusinessEntityLodgeType) : Except VErr Unit :=
  if !e.abrEntity.isSome then .error .PTSH_ABR_REQUIRED
  else if !e.organisation.isSome then .error .PTSH_ORGANISATION_REQUIRED
  else if !listTruthy e.associate then .error .PTSH_PARTNERS_REQUIRED
  else if 9 < (e.associate.getD []).length then .error .PTSH_MAX_PARTNERS
  else if e.individual.isSome then .error .PTSH_NO_INDIVIDUAL
  else if orgAcnTruthy e.organisation then .error .PTSH_NO_ACN
  else validate_partners_with_dynamic_classification e "PTSH"

/-- RULE SET 4 of `validate_owner_type_conditional_rules`: USTR (lines
233-241). -/
def ustrChecks (e : BusinessEntityLodgeType) : Except VErr Unit :=
  if !e.abrEntity.isSome then .error .USTR_ABR_REQUIRED
  else if !e.organisation.isSome then .error .USTR_ORGANISATION_REQUIRED
  else if !listTruthy e.associate then .error .USTR_TRUSTEES_REQUIRED
  else if e.individual.isSome then .error .USTR_NO_INDIVIDUAL
  else .ok ()

/-- RULE SET 5 of `validate_owner_type_conditional_rules`: JV (lines
244-274). -/
def jvChecks (e : BusinessEntityLodgeType) : Except VErr Unit :=
  if !e.organisation.isSome then .error .JV_ORGANISATION_REQUIRED
  else if !listTruthy e.associate then .error .JV_PARTNERS_REQUIRED
  else if (e.associate.getD []).length < 2 then .error .JV_MIN_PARTNERS
  else if !jvHasAbn e && !jvIsExempt e then .error .JV_ABN_OR_EXEMPT
  else if jvHasAbn e && jvIsExempt e then .error .JV_ABN_AND_EXEMPT_CONFLICT
  else if orgAcnTruthy e.organisation then .error .JV_NO_ACN
  else if e.individual.isSome then .error .JV_NO_INDIVIDUAL
  else
    match (if jvIsExempt e then jv_exempt_partner_check 0 (e.associate.getD []) else .ok ()) with
    | .error err => .error err
    | .ok _ => validate_partners_with_dynamic_classification e "JV"

/-- Checks of `BusinessEntityLodgeType.validate_owner_type_conditional_rules`
(lines 184-279): dispatch on the owner type; the trailing
`_validate_associate_consistency` is a documented no-op. -/
def owner_type_checks (e : BusinessEntityLodgeType) : Except VErr Unit :=
  match e.ownerType with
  | .IND => indChecks e
  | .IB => ibChecks e
  | .PTSH => ptshChecks e
  | .USTR => ustrChecks e
  | .JV => jvChecks e

/-- `BusinessEntityLodgeType.validate_owner_type_conditional_rules`: runs the
owner-type checks and returns `self` unchanged on success. -/
def BusinessEntityLodgeType.validate_owner_type_conditional_rules
    (e : BusinessEntityLodgeType) : Except VErr BusinessEntityLodgeType :=
  (owner_type_checks e).map fun _ => e

/-- Checks of `BusinessEntityLodgeType.validate_cross_field_relationships`
(lines 312-335): ABR entity name versus organisation name, then individual
name versus ABR entity name for IND records, in source order. -/
def cross_field_checks (e : BusinessEntityLodgeType) : Except VErr Unit :=
  match (match e.abrEntity, e.organisation with
    | some abr, some org =>
      if strTruthy abr.entityName && !org.name.isEmpty
          && decide (pyStrip (abr.entityName.getD "") ≠ pyStrip org.name) then
        Except.error VErr.NAME_MISMATCH
      else .ok ()
    | _, _ => .ok ()) with
  | .error err => .error err
  | .ok _ =>
    match e.individual, e.abrEntity with
    | some ind, some abr =>
      if e.ownerType = OwnerType.IND then
        let full_name := pyStrip (ind.name.givenNames ++ " " ++ ind.name.familyName)
        if !full_name.isEmpty && strTruthy abr.entityName
            && decide (full_name ≠ pyStrip (abr.entityName.getD "")) then
          .error .INDIVIDUAL_NAME_MISMATCH
        else .ok ()
      else .ok ()
    | _, _ => .ok ()

/-- `BusinessEntityLodgeType.validate_cross_field_relationships`: runs the
cross-field checks and returns `self` unchanged on success. -/
def BusinessEntityLodgeType.validate_cross_field_relationships
    (e : BusinessEntityLodgeType) : Except VErr BusinessEntityLodgeType :=
  (cross_field_checks e).map fun _ => e

/-- Nested validation pass performed by pydantic when a business entity is
validated from data: every associate is fully validated before the entity's
own model validators run, and a failure surfaces unwrapped. -/
def associates_nested_checks : List AssociateLodgeType → Except VErr Unit
  | [] => .ok ()
  | a :: rest =>
    match a.model_validate with
    | .error e => .error e
    | .ok _ => associates_nested_checks rest

/-- Full validation of a `BusinessEntityLodgeType` from data: nested
associate validation, then the two model validators in definition order. -/
def BusinessEntityLodgeType.model_validate
    (e : BusinessEntityLodgeType) : Except VErr BusinessEntityLodgeType :=
  match associates_nested_checks (e.associate.getD []) with
  | .error err => .error err
  | .ok _ =>
    match e.validate_owner_type_conditional_rules with
    | .error err => .error err
    | .ok e1 => e1.validate_cross_field_relationships

/- Concrete records used by witnesses and counterexamples. -/

/-- Sample person name. -/
def nameJane : PersonNameLodgeType := { givenNames := "Jane", familyName := "Doe" }

/-- Sample individual. -/
def indJane : IndividualLodgeType := { name := nameJane }

/-- Sample organisation carrying an ACN. -/
def orgAcme : OrganisationLodgeType := { name := "Acme Pty Ltd", acn := some "123456789" }

/-- Sample organisation without an ACN. -/
def orgPlain : OrganisationLodgeType := { name := "Acme Ventures" }

/-- Sample ABR entity carrying an ABN. -/
def abrAbn : AbrEntity := { abn := some { abn := "12345678901" } }

/-- Sample associate classified as individual, passing its validation. -/
def partnerInd : AssociateLodgeType := { abrEntity := abrAbn, individual := some indJane }

/-- Sample representative wrapping an organisation without an ACN. -/
def repOrgNoAcn : PartnerAssociateLodgeType := { organisation := some orgPlain }

/-- Sample representative wrapping an organisation with an ACN. -/
def repOrgAcn : PartnerAssociateLodgeType := { organisation := some orgAcme }

/- General facts about the embedded validators, shared by the claim
theorems below. -/

/-- Mapping a function over an `Except` yields `.ok` exactly when the
argument is `.ok`. -/
theorem except_map_ok_iff {α β : Type} (f : α → β) (x : Except VErr α) (y : β) :
    Except.map f x = .ok y ↔ ∃ u, x = .ok u ∧ y = f u := by
  cases x <;> simp [Except.map]
  exact eq_comm

/-- Mapping a function over an `Except` preserves errors. -/
theorem except_map_error_iff {α β : Type} (f : α → β) (x : Except VErr α) (c : VErr) :
    Except.map f x = .error c ↔ x = .error c := by
  cases x <;> simp [Except.map]

/-- The source classification agrees with the spec-worded classification on
every associate. -/
theorem classification_eq (a : AssociateLodgeType) :
    a.partner_classification =
      classifySpec a.individual.isSome a.organisation.isSome (orgAcnTruthy a.organisation) := by
  rcases hi : a.individual with _ | ind <;> rcases ho : a.organisation with _ | o <;>
    simp only [AssociateLodgeType.partner_classification, classifySpec, hi, ho,
      Option.isSome_none, Option.isSome_some, Bool.not_true, Bool.not_false,
      Bool.and_true, Bool.and_false, Bool.true_and, Bool.false_and,
      if_true, if_false, orgAcnTruthy]
  · rfl
  · cases hacn : strTruthy o.acn <;> simp
  · rfl

/-- A successful classification is one of the three documented strings. -/
theorem classification_ok_values (a : AssociateLodgeType) (s : String)
    (h : a.partner_classification = .ok s) :
    s = "individual" ∨ s = "incorporated" ∨ s = "unincorporated" := by
  rw [classification_eq] at h
  cases hi : a.individual.isSome <;> cases ho : a.organisation.isSome <;>
    cases hacn : orgAcnTruthy a.organisation <;> rw [hi, ho, hacn] at h <;>
      simp [classifySpec] at h <;> simp [h]

/-- A failed classification always carries `ASSOC_STRUCTURE`. -/
theorem classification_error_values (a : AssociateLodgeType) (c : VErr)
    (h : a.partner_classification = .error c) : c = .ASSOC_STRUCTURE := by
  rw [classification_eq] at h
  cases hi : a.individual.isSome <;> cases ho : a.organisation.isSome <;>
    cases hacn : orgAcnTruthy a.organisation <;> rw [hi, ho, hacn] at h <;>
      simp [classifySpec] at h <;> simp [h]

/-- Classification "unincorporated" entails organisation present with its
ACN falsy and individual absent. -/
theorem uninc_facts (a : AssociateLodgeType)
    (h : a.partner_classification = .ok "unincorporated") :
    a.individual.isSome = false ∧ a.organisation.isSome = true ∧
      orgAcnTruthy a.organisation = false := by
  rw [classification_eq] at h
  cases hi : a.individual.isSome <;> cases ho : a.organisation.isSome <;>
    cases hacn : orgAcnTruthy a.organisation <;> rw [hi, ho, hacn] at h <;>
      simp_all [classifySpec]

/-- Classification "incorporated" entails organisation present with its ACN
truthy and individual absent. -/
theorem inc_facts (a : AssociateLodgeType)
    (h : a.partner_classification = .ok "incorporated") :
    a.individual.isSome = false ∧ a.organisation.isSome = true ∧
      orgAcnTruthy a.organisation = true := by
  rw [classification_eq] at h
  cases hi : a.individual.isSome <;> cases ho : a.organisation.isSome <;>
    cases hacn : orgAcnTruthy a.organisation <;> rw [hi, ho, hacn] at h <;>
      simp_all [classifySpec]

/-- A failure of the representative loop is always a wrapped
`UNINC_REP_INVALID`. -/
theorem validate_reps_loop_error (i : Nat) (l : List PartnerAssociateLodgeType) (c : VErr)
    (h : validate_reps_loop i l = .error c) :
    ∃ j inner, c = .UNINC_REP_INVALID j inner := by
  induction l generalizing i with
  | nil => simp [validate_reps_loop] at h
  | cons r rs ih =>
    unfold validate_reps_loop at h
    cases hr : r.validate_representative_exclusive with
    | error e =>
      rw [hr] at h
      simp only [Except.error.injEq] at h
      exact ⟨i + 1, e, h.symm⟩
    | ok q =>
      rw [hr] at h
      exact ih (i + 1) h

/-- When every representative passes, the representative loop succeeds. -/
theorem validate_reps_loop_ok (i : Nat) (l : List PartnerAssociateLodgeType)
    (h : ∀ q ∈ l, q.validate_representative_exclusive = .ok q) :
    validate_reps_loop i l = .ok () := by
  induction l generalizing i with
  | nil => simp [validate_reps_loop]
  | cons r rs ih =>
    unfold validate_reps_loop
    rw [h r (by simp)]
    exact ih (i + 1) fun q hq => h q (by simp [hq])

/-- The representative loop reports the first failing entry with its 1-based
index and the inner error. -/
theorem validate_reps_loop_first (i : Nat) (l1 : List PartnerAssociateLodgeType)
    (r : PartnerAssociateLodgeType) (l2 : List PartnerAssociateLodgeType) (err : VErr)
    (h1 : ∀ q ∈ l1, q.validate_representative_exclusive = .ok q)
    (hr : r.validate_representative_exclusive = .error err) :
    validate_reps_loop i (l1 ++ r :: l2) = .error (.UNINC_REP_INVALID (i + l1.length + 1) err) := by
  induction l1 generalizing i with
  | nil =>
    rw [List.nil_append]
    simp [validate_reps_loop, hr]
  | cons q qs ih =>
    rw [List.cons_append]
    simp only [validate_reps_loop, h1 q (by simp)]
    rw [ih (i + 1) fun x hx => h1 x (by simp [hx])]
    simp only [Except.error.injEq, VErr.UNINC_REP_INVALID.injEq, List.length_cons,
      eq_self_iff_true, and_true]
    omega

/-- A failure of the exempt-partner loop is always `JV_EXEMPT_PARTNER_ABN`. -/
theorem jv_exempt_partner_check_error (i : Nat) (l : List AssociateLodgeType) (c : VErr)
    (h : jv_exempt_partner_check i l = .error c) : ∃ j, c = .JV_EXEMPT_PARTNER_ABN j := by
  induction l generalizing i with
  | nil => simp [jv_exempt_partner_check] at h
  | cons p ps ih =>
    unfold jv_exempt_partner_check at h
    by_cases hp : p.abrEntity.abn.isNone
    · rw [if_pos hp] at h
      simp only [Except.error.injEq] at h
      exact ⟨i + 1, h.symm⟩
    · rw [if_neg hp] at h
      exact ih (i + 1) h

/-- When every partner carries an ABN the exempt-partner loop succeeds. -/
theorem jv_exempt_partner_check_ok (i : Nat) (l : List AssociateLodgeType)
    (h : ∀ p ∈ l, p.abrEntity.abn.isSome = true) :
    jv_exempt_partner_check i l = .ok () := by
  induction l generalizing i with
  | nil => simp [jv_exempt_partner_check]
  | cons p ps ih =>
    unfold jv_exempt_partner_check
    rw [if_neg (by simp [Option.isNone_iff_eq_none]; exact Option.isSome_iff_ne_none.mp (h p (by simp)))]
    exact ih (i + 1) fun q hq => h q (by simp [hq])

/-- The exempt-partner loop reports the first partner lacking an ABN with
its 1-based index. -/
theorem jv_exempt_partner_check_first (i : Nat) (l1 : List AssociateLodgeType)
    (p : AssociateLodgeType) (l2 : List AssociateLodgeType)
    (h1 : ∀ q ∈ l1, q.abrEntity.abn.isSome = true) (hp : p.abrEntity.abn = none) :
    jv_exempt_partner_check i (l1 ++ p :: l2) =
      .error (.JV_EXEMPT_PARTNER_ABN (i + l1.length + 1)) := by
  induction l1 generalizing i with
  | nil =>
    rw [List.nil_append]
    simp [jv_exempt_partner_check, hp]
  | cons q qs ih =>
    rw [List.cons_append]
    have hq : q.abrEntity.abn.isNone = false := by
      have := h1 q (by simp)
      cases habn : q.abrEntity.abn <;> simp_all
    simp only [jv_exempt_partner_check, hq, Bool.false_eq_true, if_false]
    rw [ih (i + 1) fun x hx => h1 x (by simp [hx])]
    simp only [Except.error.injEq, VErr.JV_EXEMPT_PARTNER_ABN.injEq, List.length_cons]
    omega

/-- A failure of the partner loop is always a wrapped `PARTNER_INVALID`
carrying the same context. -/
theorem validate_partners_loop_error (context : String) (i : Nat)
    (l : List AssociateLodgeType) (c : VErr)
    (h : validate_partners_loop context i l = .error c) :
    ∃ j inner, c = .PARTNER_INVALID context j inner := by
  induction l generalizing i with
  | nil => simp [validate_partners_loop] at h
  | cons p ps ih =>
    unfold validate_partners_loop at h
    cases hp : p.model_validate with
    | error e =>
      rw [hp] at h
      simp only [Except.error.injEq] at h
      exact ⟨i + 1, e, h.symm⟩
    | ok q =>
      rw [hp] at h
      exact ih (i + 1) h

/-- When every partner fully validates, the partner loop succeeds. -/
theorem validate_partners_loop_ok (context : String) (i : Nat)
    (l : List AssociateLodgeType)
    (h : ∀ p ∈ l, p.model_validate = .ok p) :
    validate_partners_loop context i l = .ok () := by
  induction l generalizing i with
  | nil => simp [validate_partners_loop]
  | cons p ps ih =>
    unfold validate_partners_loop
    rw [h p (by simp)]
    exact ih (i + 1) fun q hq => h q (by simp [hq])

/-- When every associate fully validates, the nested pass succeeds. -/
theorem associates_nested_checks_ok (l : List AssociateLodgeType)
    (h : ∀ p ∈ l, p.model_validate = .ok p) :
    associates_nested_checks l = .ok () := by
  induction l with
  | nil => simp [associates_nested_checks]
  | cons p ps ih =>
    unfold associates_nested_checks
    rw [h p (by simp)]
    exact ih fun q hq => h q (by simp [hq])

/-- Claim C2: the derived classification of an associate is a total,
deterministic function of the three facts individual-present,
organisation-present, organisation.acn-present, returning "individual" when
only the individual is present, "incorporated" when only the organisation is
present with its ACN, "unincorporated" when only the organisation is present
without its ACN, and no value (an `ASSOC_STRUCTURE` error) when both or
neither of individual/organisation are present. -/
theorem C2_partner_classification_total (a : AssociateLodgeType) :
    a.partner_classification =
      classifySpec a.individual.isSome a.organisation.isSome (orgAcnTruthy a.organisation) :=
  classification_eq a

/-- Claim C1 is refuted by the code: every associate classified as
incorporated whose representative list is empty or absent is rejected with
`INC_ASSOC_ACN`, because the incorporated branch raises that error exactly
when the ACN is present, which the classification guarantees — the message
"Incorporated associates must have ACN" contradicts the raising condition. -/
theorem C1_incorporated_always_inc_assoc_acn (a : AssociateLodgeType)
    (hcls : a.partner_classification = .ok "incorporated")
    (hreps : listTruthy a.partnerAssociate = false) :
    a.validate_associate_classification_rules = .error .INC_ASSOC_ACN := by
  obtain ⟨hi, ho, hacn⟩ := inc_facts a hcls
  unfold AssociateLodgeType.validate_associate_classification_rules
  rw [except_map_error_iff]
  unfold associate_classification_checks
  rw [hcls]
  simp [hreps, ho, hacn]

/-- Sample incorporated associate satisfying every requirement of the spec
table for the incorporated classification. -/
def assocIncC1 : AssociateLodgeType := { abrEntity := abrAbn, organisation := some orgAcme }

/-- Claim C1 witness: a concrete incorporated associate with ACN and ABN
present and no representatives — which the claim says must pass — is
rejected with `INC_ASSOC_ACN`. -/
theorem C1_witness :
    assocIncC1.partner_classification = .ok "incorporated" ∧
    listTruthy assocIncC1.partnerAssociate = false ∧
    assocIncC1.abrEntity.abn.isSome = true ∧
    assocIncC1.validate_associate_classification_rules = .error .INC_ASSOC_ACN :=
  ⟨by decide, by decide, by decide,
    C1_incorporated_always_inc_assoc_acn assocIncC1 (by decide) (by decide)⟩

/-- Sample representative with both an individual and an organisation set,
the organisation lacking an ACN. -/
def repBothC6 : PartnerAssociateLodgeType :=
  { individual := some indJane, organisation := some orgPlain }

/-- Claim C6 counterexample: a record with both individual and organisation
set and the organisation lacking an ACN satisfies "organisation is set
without an ACN", yet it does not fail with `PARTNER_ASSOC_ORG_ACN` — it
fails with `PARTNER_ASSOC_EXCLUSIVE` — refuting the stated biconditional
for `PARTNER_ASSOC_ORG_ACN`. -/
theorem C6_counterexample :
    repBothC6.organisation.isSome = true ∧
    orgAcnTruthy repBothC6.organisation = false ∧
    repBothC6.validate_representative_exclusive = .error .PARTNER_ASSOC_EXCLUSIVE ∧
    repBothC6.validate_representative_exclusive ≠ .error .PARTNER_ASSOC_ORG_ACN := by
  decide

/-- Claim C6 as amended: representative validation fails with
`PARTNER_ASSOC_REQUIRED` iff neither individual nor organisation is set,
with `PARTNER_ASSOC_EXCLUSIVE` iff both are set, with
`PARTNER_ASSOC_ORG_ACN` iff only the organisation is set and its ACN is
absent, and succeeds otherwise (exactly one set, with the ACN present
whenever it is the organisation). -/
theorem C6_amended_partner_assoc_cases (p : PartnerAssociateLodgeType) :
    (p.validate_representative_exclusive = .error .PARTNER_ASSOC_REQUIRED ↔
      p.individual = none ∧ p.organisation = none) ∧
    (p.validate_representative_exclusive = .error .PARTNER_ASSOC_EXCLUSIVE ↔
      p.individual.isSome = true ∧ p.organisation.isSome = true) ∧
    (p.validate_representative_exclusive = .error .PARTNER_ASSOC_ORG_ACN ↔
      p.individual = none ∧ p.organisation.isSome = true ∧
        orgAcnTruthy p.organisation = false) ∧
    (p.validate_representative_exclusive = .ok p ↔
      ((p.individual.isSome = true ∧ p.organisation = none) ∨
        (p.individual = none ∧ p.organisation.isSome = true ∧
          orgAcnTruthy p.organisation = true))) := by
  rcases hi : p.individual with _ | ind <;> rcases ho : p.organisation with _ | o
  · simp [PartnerAssociateLodgeType.validate_representative_exclusive, hi, ho]
  · cases hacn : strTruthy o.acn <;>
      simp [PartnerAssociateLodgeType.validate_representative_exclusive, hi, ho,
        orgAcnTruthy, hacn]
  · simp [PartnerAssociateLodgeType.validate_representative_exclusive, hi, ho]
  · simp [PartnerAssociateLodgeType.validate_representative_exclusive, hi, ho]

/-- Claim C10: for an associate classified as unincorporated the condition
"organisation present and ACN present" tested inside the unincorporated
branch is never true, so the guard raising `UNINC_ASSOC_NO_ACN` is
unreachable: no associate validation ever returns that error. -/
theorem C10_uninc_no_acn_unreachable (a : AssociateLodgeType) :
    (a.partner_classification = .ok "unincorporated" →
      (a.organisation.isSome && orgAcnTruthy a.organisation) = false) ∧
    a.validate_associate_classification_rules ≠ .error .UNINC_ASSOC_NO_ACN := by
  constructor
  · intro h
    obtain ⟨hi, ho, hacn⟩ := uninc_facts a h
    simp [ho, hacn]
  · intro hcon
    unfold AssociateLodgeType.validate_associate_classification_rules at hcon
    rw [except_map_error_iff] at hcon
    unfold associate_classification_checks at hcon
    cases hcls : a.partner_classification with
    | error e =>
      rw [hcls] at hcon
      have he := classification_error_values a e hcls
      subst he
      simp at hcon
    | ok s =>
      rw [hcls] at hcon
      simp only [] at hcon
      rcases classification_ok_values a s hcls with h | h | h
      · subst h
        simp only [reduceIte] at hcon
        cases hr1 : listTruthy a.partnerAssociate <;> simp [hr1] at hcon
        cases hr3 : a.abrEntity.abn <;> simp [hr3] at hcon
      · subst h
        simp only [reduceIte] at hcon
        cases hr1 : listTruthy a.partnerAssociate <;> simp [hr1] at hcon
        cases ho2 : a.organisation.isSome <;> cases hacn2 : orgAcnTruthy a.organisation <;>
          simp [ho2, hacn2] at hcon <;>
            cases hr3 : a.abrEntity.abn <;> simp [hr3] at hcon
      · subst h
        simp only [reduceIte] at hcon
        obtain ⟨hi, ho, hacn⟩ := uninc_facts a hcls
        cases hr1 : listTruthy a.partnerAssociate <;> simp [hr1, ho, hacn] at hcon
        cases hr3 : a.abrEntity.abn <;> simp [hr3] at hcon
        obtain ⟨j, inner, hji⟩ := validate_reps_loop_error _ _ _ hcon
        simp at hji

/-- Sample unincorporated associate with a representative carrying an
ACN. -/
def assocUnincC10 : AssociateLodgeType :=
  { abrEntity := abrAbn, organisation := some orgPlain,
    partnerAssociate := some [repOrgAcn] }

/-- Claim C10 witness: the guard condition evaluates to false and the error
is not raised on a concrete unincorporated associate. -/
theorem C10_witness :
    (assocUnincC10.organisation.isSome && orgAcnTruthy assocUnincC10.organisation) = false ∧
    assocUnincC10.validate_associate_classification_rules ≠ .error .UNINC_ASSOC_NO_ACN :=
  ⟨(C10_uninc_no_acn_unreachable assocUnincC10).1 (by decide),
    (C10_uninc_no_acn_unreachable assocUnincC10).2⟩

/-- Claim C7: an associate classified as unincorporated is rejected with
`UNINC_ASSOC_REPS_REQUIRED` when its representative list is empty or absent;
otherwise (with the ABN present, checked first) every entry must pass the
representative classifier, and the first failing entry at 0-based position
`i` is reported as `UNINC_REP_INVALID` carrying the 1-based index `i + 1`
and the inner error; when every entry passes, validation succeeds. -/
theorem C7_uninc_representative_cascade (a : AssociateLodgeType)
    (hcls : a.partner_classification = .ok "unincorporated") :
    (listTruthy a.partnerAssociate = false →
      a.validate_associate_classification_rules = .error .UNINC_ASSOC_REPS_REQUIRED) ∧
    (∀ l1 r l2 err, a.abrEntity.abn.isSome = true →
      a.partnerAssociate = some (l1 ++ r :: l2) →
      (∀ q ∈ l1, q.validate_representative_exclusive = .ok q) →
      r.validate_representative_exclusive = .error err →
      a.validate_associate_classification_rules =
        .error (.UNINC_REP_INVALID (l1.length + 1) err)) ∧
    (∀ l, l ≠ [] → a.abrEntity.abn.isSome = true → a.partnerAssociate = some l →
      (∀ q ∈ l, q.validate_representative_exclusive = .ok q) →
      a.validate_associate_classification_rules = .ok a) := by
  obtain ⟨hi, ho, hacn⟩ := uninc_facts a hcls
  refine ⟨?_, ?_, ?_⟩
  · intro hreps
    unfold AssociateLodgeType.validate_associate_classification_rules
    rw [except_map_error_iff]
    unfold associate_classification_checks
    rw [hcls]
    simp [hreps]
  · intro l1 r l2 err habn hpa h1 hr
    have hlt : listTruthy (some (l1 ++ r :: l2)) = true := by
      cases l1 <;> simp [listTruthy]
    unfold AssociateLodgeType.validate_associate_classification_rules
    rw [except_map_error_iff]
    unfold associate_classification_checks
    rw [hcls]
    simp [hpa, hlt, ho, hacn, habn, validate_reps_loop_first 0 l1 r l2 err h1 hr]
  · intro l hne habn hpa hall
    have hlt : listTruthy (some l) = true := by
      rcases l with _ | ⟨q, qs⟩
      · exact absurd rfl hne
      · simp [listTruthy]
    have hchecks : associate_classification_checks a = .ok () := by
      unfold associate_classification_checks
      rw [hcls]
      simp [hpa, hlt, ho, hacn, habn, validate_reps_loop_ok 0 l hall]
    unfold AssociateLodgeType.validate_associate_classification_rules
    rw [hchecks]
    rfl

/-- Sample unincorporated associate (empty representative list). -/
def assocUnincEmpty : AssociateLodgeType :=
  { abrEntity := abrAbn, organisation := some orgPlain, partnerAssociate := some [] }

/-- Sample unincorporated associate with one representative wrapping an
organisation without an ACN. -/
def assocUnincBad : AssociateLodgeType :=
  { abrEntity := abrAbn, organisation := some orgPlain,
    partnerAssociate := some [repOrgNoAcn] }

/-- Sample unincorporated associate with one representative wrapping an
organisation with an ACN. -/
def assocUnincGood : AssociateLodgeType :=
  { abrEntity := abrAbn, organisation := some orgPlain,
    partnerAssociate := some [repOrgAcn] }

/-- Claim C7 witness: the spec's example sequence — empty list rejected with
`UNINC_ASSOC_REPS_REQUIRED`; one representative holding an organisation
without an ACN rejected with `UNINC_REP_INVALID` at index 1 wrapping
`PARTNER_ASSOC_ORG_ACN`; one holding an organisation with an ACN
accepted. -/
theorem C7_witness :
    assocUnincEmpty.validate_associate_classification_rules
        = .error .UNINC_ASSOC_REPS_REQUIRED ∧
    assocUnincBad.validate_associate_classification_rules
        = .error (.UNINC_REP_INVALID 1 .PARTNER_ASSOC_ORG_ACN) ∧
    assocUnincGood.validate_associate_classification_rules = .ok assocUnincGood :=
  ⟨(C7_uninc_representative_cascade assocUnincEmpty (by decide)).1 (by decide),
    (C7_uninc_representative_cascade assocUnincBad (by decide)).2.1
      [] repOrgNoAcn [] .PARTNER_ASSOC_ORG_ACN (by decide) rfl
      (by intro q hq; simp at hq) (by decide),
    (C7_uninc_representative_cascade assocUnincGood (by decide)).2.2
      [repOrgAcn] (by decide) (by decide) rfl (by decide)⟩

/-- Claim C8: whenever the record carries both an ABR entity name (truthy)
and an organisation name, the cross-field check fails with `NAME_MISMATCH`
exactly when the two strings differ after trimming surrounding whitespace
(the comparison is case-sensitive string equality); when they agree after
trimming, this check does not raise `NAME_MISMATCH`. -/
theorem C8_name_mismatch (e : BusinessEntityLodgeType) (abr : AbrEntity)
    (org : OrganisationLodgeType)
    (hAbr : e.abrEntity = some abr) (hOrg : e.organisation = some org)
    (hName : strTruthy abr.entityName = true) (hempty : org.name.isEmpty = false) :
    (pyStrip (abr.entityName.getD "") ≠ pyStrip org.name →
      e.validate_cross_field_relationships = .error .NAME_MISMATCH) ∧
    (pyStrip (abr.entityName.getD "") = pyStrip org.name →
      e.validate_cross_field_relationships ≠ .error .NAME_MISMATCH) := by
  constructor
  · intro hne
    unfold BusinessEntityLodgeType.validate_cross_field_relationships
    rw [except_map_error_iff]
    unfold cross_field_checks
    rw [hAbr, hOrg]
    simp only []
    rw [if_pos (by simp [hName, hempty, hne])]
  · intro heq hcon
    unfold BusinessEntityLodgeType.validate_cross_field_relationships at hcon
    rw [except_map_error_iff] at hcon
    unfold cross_field_checks at hcon
    rw [hAbr, hOrg] at hcon
    simp only [] at hcon
    rw [if_neg (by simp [heq])] at hcon
    cases hind : e.individual with
    | none => simp [hind] at hcon
    | some ind =>
      rw [hind] at hcon
      simp only [] at hcon
      by_cases hot : e.ownerType = OwnerType.IND
      · rw [if_pos hot] at hcon
        split at hcon <;> simp_all
      · rw [if_neg hot] at hcon
        simp at hcon

/-- Sample record whose ABR entity name differs from the organisation name
only by letter case. -/
def eCaseC8 : BusinessEntityLodgeType :=
  { ownerType := .IB,
    abrEntity := some { abn := some { abn := "12345678901" },
                        entityName := some "ACME PTY LTD" },
    organisation := some orgAcme }

/-- Claim C8 witness: names differing only by case (after trimming) are
rejected with `NAME_MISMATCH`, exhibiting case sensitivity. -/
theorem C8_witness :
    pyStrip "ACME PTY LTD" ≠ pyStrip "Acme Pty Ltd" ∧
    eCaseC8.validate_cross_field_relationships = .error .NAME_MISMATCH :=
  ⟨by decide,
    (C8_name_mismatch eCaseC8 _ orgAcme rfl rfl (by decide) (by decide)).1 (by decide)⟩

/-- Claim C9: validation is pass-through and idempotent — a record accepted
by full validation is returned unchanged, and validating the same data
again succeeds with the same record; the embedded validators are pure
functions of the record. -/
theorem C9_validation_idempotent (e r : BusinessEntityLodgeType)
    (h : e.model_validate = .ok r) : r = e ∧ r.model_validate = .ok r := by
  have hre : r = e := by
    unfold BusinessEntityLodgeType.model_validate at h
    cases h1 : associates_nested_checks (e.associate.getD []) with
    | error err => rw [h1] at h; simp at h
    | ok u =>
      rw [h1] at h
      cases h2 : e.validate_owner_type_conditional_rules with
      | error err => rw [h2] at h; simp at h
      | ok e1 =>
        rw [h2] at h
        have he1 : e1 = e := by
          unfold BusinessEntityLodgeType.validate_owner_type_conditional_rules at h2
          obtain ⟨u1, hu1, he⟩ := (except_map_ok_iff _ _ _).mp h2
          exact he
        subst he1
        unfold BusinessEntityLodgeType.validate_cross_field_relationships at h
        obtain ⟨u2, hu2, hr2⟩ := (except_map_ok_iff _ _ _).mp h
        exact hr2
  subst hre
  exact ⟨rfl, h⟩

/-- Sample accepted sole-trader record: individual present, ABN present,
individual name equal to the ABR entity name. -/
def eIndC9 : BusinessEntityLodgeType :=
  { ownerType := .IND,
    abrEntity := some { abn := some { abn := "12345678901" },
                        entityName := some "Jane Doe" },
    individual := some indJane }

/-- Claim C9 witness: a concrete accepted record is returned unchanged and
re-validates successfully. -/
theorem C9_witness :
    eIndC9 = eIndC9 ∧ eIndC9.model_validate = .ok eIndC9 :=
  C9_validation_idempotent eIndC9 eIndC9 (by decide)

/-- An error raised by the JV rule set after the ABN/exemption point is
never one of the two ABN codes. -/
theorem jvChecks_tail_errors (e : BusinessEntityLodgeType) (c : VErr)
    (hOrgSome : e.organisation.isSome = true)
    (hlt : listTruthy e.associate = true)
    (hlen : ¬((e.associate.getD []).length < 2))
    (h4 : (!jvHasAbn e && !jvIsExempt e) = false)
    (h5 : (jvHasAbn e && jvIsExempt e) = false)
    (h : jvChecks e = .error c) :
    c ≠ .JV_ABN_AND_EXEMPT_CONFLICT ∧ c ≠ .JV_ABN_OR_EXEMPT := by
  unfold jvChecks at h
  simp only [hOrgSome, hlt, Bool.not_true, Bool.false_eq_true, if_false] at h
  rw [if_neg hlen] at h
  simp only [h4, h5, Bool.false_eq_true, if_false] at h
  cases hg : orgAcnTruthy e.organisation <;> simp [hg] at h
  · cases hii : e.individual.isSome <;> simp [hii] at h
    · cases hex : jvIsExempt e <;> simp [hex] at h
      · cases hloop : validate_partners_with_dynamic_classification e "JV" with
        | error ce =>
          rw [hloop] at h
          simp only [Except.error.injEq] at h
          subst h
          unfold validate_partners_with_dynamic_classification at hloop
          cases hassoc : e.associate with
          | none => rw [hassoc] at hloop; simp at hloop
          | some l =>
            rw [hassoc] at hloop
            obtain ⟨j, inner, hji⟩ := validate_partners_loop_error _ _ _ _ hloop
            subst hji
            exact ⟨by simp, by simp⟩
        | ok u => rw [hloop] at h; simp at h
      · cases hchk : jv_exempt_partner_check 0 (e.associate.getD []) with
        | error ce =>
          rw [hchk] at h
          simp only [] at h
          simp only [Except.error.injEq] at h
          subst h
          obtain ⟨j, hj⟩ := jv_exempt_partner_check_error _ _ _ hchk
          subst hj
          exact ⟨by simp, by simp⟩
        | ok u =>
          rw [hchk] at h
          simp only [] at h
          cases hloop : validate_partners_with_dynamic_classification e "JV" with
          | error ce =>
            rw [hloop] at h
            simp only [Except.error.injEq] at h
            subst h
            unfold validate_partners_with_dynamic_classification at hloop
            cases hassoc : e.associate with
            | none => rw [hassoc] at hloop; simp at hloop
            | some l =>
              rw [hassoc] at hloop
              obtain ⟨j, inner, hji⟩ := validate_partners_loop_error _ _ _ _ hloop
              subst hji
              exact ⟨by simp, by simp⟩
          | ok u2 => rw [hloop] at h; simp at h
    · subst h
      exact ⟨by simp, by simp⟩
  · subst h
    exact ⟨by simp, by simp⟩

/-- Claim C3: for a JV record satisfying the preceding JV rules
(organisation present, at least two associates), exactly one of
{ABR entity carries an ABN, abnExemption is true} must hold: both raise
`JV_ABN_AND_EXEMPT_CONFLICT`, neither raises `JV_ABN_OR_EXEMPT`, and with
exactly one the two checks pass — the rule set never returns either
code. -/
theorem C3_jv_abn_xor (e : BusinessEntityLodgeType) (org : OrganisationLodgeType)
    (l : List AssociateLodgeType)
    (hT : e.ownerType = .JV) (hOrg : e.organisation = some org)
    (hAssoc : e.associate = some l) (hLen : 2 ≤ l.length) :
    ((jvHasAbn e = true ∧ jvIsExempt e = true) →
      e.validate_owner_type_conditional_rules = .error .JV_ABN_AND_EXEMPT_CONFLICT) ∧
    ((jvHasAbn e = false ∧ jvIsExempt e = false) →
      e.validate_owner_type_conditional_rules = .error .JV_ABN_OR_EXEMPT) ∧
    (jvHasAbn e ≠ jvIsExempt e →
      e.validate_owner_type_conditional_rules ≠ .error .JV_ABN_AND_EXEMPT_CONFLICT ∧
      e.validate_owner_type_conditional_rules ≠ .error .JV_ABN_OR_EXEMPT) := by
  have hOrgSome : e.organisation.isSome = true := by rw [hOrg]; rfl
  have hlt : listTruthy e.associate = true := by
    rw [hAssoc]
    rcases l with _ | ⟨p, ps⟩
    · simp at hLen
    · simp [listTruthy]
  have hlen : ¬((e.associate.getD []).length < 2) := by
    rw [hAssoc]
    simp only [Option.getD_some]
    omega
  have howner : owner_type_checks e = jvChecks e := by
    unfold owner_type_checks
    rw [hT]
  refine ⟨?_, ?_, ?_⟩
  · rintro ⟨ha, hx⟩
    unfold BusinessEntityLodgeType.validate_owner_type_conditional_rules
    rw [except_map_error_iff, howner]
    unfold jvChecks
    simp only [hOrgSome, hlt, Bool.not_true, Bool.false_eq_true, if_false]
    rw [if_neg hlen]
    simp [ha, hx]
  · rintro ⟨ha, hx⟩
    unfold BusinessEntityLodgeType.validate_owner_type_conditional_rules
    rw [except_map_error_iff, howner]
    unfold jvChecks
    simp only [hOrgSome, hlt, Bool.not_true, Bool.false_eq_true, if_false]
    rw [if_neg hlen]
    simp [ha, hx]
  · intro hne
    have h4 : (!jvHasAbn e && !jvIsExempt e) = false := by
      cases hab : jvHasAbn e <;> cases hex : jvIsExempt e <;> simp_all
    have h5 : (jvHasAbn e && jvIsExempt e) = false := by
      cases hab : jvHasAbn e <;> cases hex : jvIsExempt e <;> simp_all
    constructor <;> intro hcon
    · have hh : jvChecks e = .error .JV_ABN_AND_EXEMPT_CONFLICT := by
        rw [← howner]
        exact (except_map_error_iff _ _ _).mp hcon
      exact (jvChecks_tail_errors e _ hOrgSome hlt hlen h4 h5 hh).1 rfl
    · have hh : jvChecks e = .error .JV_ABN_OR_EXEMPT := by
        rw [← howner]
        exact (except_map_error_iff _ _ _).mp hcon
      exact (jvChecks_tail_errors e _ hOrgSome hlt hlen h4 h5 hh).2 rfl

/-- Sample JV record with ABN present and no exemption. -/
def jvC3 : BusinessEntityLodgeType :=
  { ownerType := .JV, abrEntity := some abrAbn, organisation := some orgPlain,
    associate := some [partnerInd, partnerInd] }

/-- Claim C3 witness: with exactly one of ABN/exemption neither code is
raised; with both, `JV_ABN_AND_EXEMPT_CONFLICT`; with neither,
`JV_ABN_OR_EXEMPT`. -/
theorem C3_witness :
    jvC3.validate_owner_type_conditional_rules ≠ .error .JV_ABN_AND_EXEMPT_CONFLICT ∧
    jvC3.validate_owner_type_conditional_rules ≠ .error .JV_ABN_OR_EXEMPT ∧
    ({ jvC3 with abnExemption := some true } :
        BusinessEntityLodgeType).validate_owner_type_conditional_rules
      = .error .JV_ABN_AND_EXEMPT_CONFLICT ∧
    ({ jvC3 with abrEntity := none } :
        BusinessEntityLodgeType).validate_owner_type_conditional_rules
      = .error .JV_ABN_OR_EXEMPT :=
  ⟨((C3_jv_abn_xor jvC3 orgPlain [partnerInd, partnerInd] rfl rfl rfl
      (by decide)).2.2 (by decide)).1,
    ((C3_jv_abn_xor jvC3 orgPlain [partnerInd, partnerInd] rfl rfl rfl
      (by decide)).2.2 (by decide)).2,
    (C3_jv_abn_xor { jvC3 with abnExemption := some true } orgPlain
      [partnerInd, partnerInd] rfl rfl rfl (by decide)).1 (by decide),
    (C3_jv_abn_xor { jvC3 with abrEntity := none } orgPlain
      [partnerInd, partnerInd] rfl rfl rfl (by decide)).2.1 (by decide)⟩

/-- Claim C4: for a JV record that is ABN exempt (and passes the preceding
JV rules), the exempt-partner check requires every associate's ABR entity
to carry an ABN: the first associate lacking one is reported as
`JV_EXEMPT_PARTNER_ABN` with its 1-based index, and when every associate
carries an ABN this check passes and the code is never raised. -/
theorem C4_jv_exempt_partner_abn (e : BusinessEntityLodgeType)
    (org : OrganisationLodgeType) (l : List AssociateLodgeType)
    (hT : e.ownerType = .JV) (hOrg : e.organisation = some org)
    (hAcn : strTruthy org.acn = false) (hInd : e.individual = none)
    (hAssoc : e.associate = some l) (hLen : 2 ≤ l.length)
    (hNoAbn : jvHasAbn e = false) (hEx : e.abnExemption = some true) :
    (∀ l1 p l2, l = l1 ++ p :: l2 →
      (∀ q ∈ l1, q.abrEntity.abn.isSome = true) → p.abrEntity.abn = none →
      e.validate_owner_type_conditional_rules =
        .error (.JV_EXEMPT_PARTNER_ABN (l1.length + 1))) ∧
    ((∀ p ∈ l, p.abrEntity.abn.isSome = true) →
      jv_exempt_partner_check 0 l = .ok () ∧
      ∀ i, e.validate_owner_type_conditional_rules ≠
        .error (.JV_EXEMPT_PARTNER_ABN i)) := by
  have hOrgSome : e.organisation.isSome = true := by rw [hOrg]; rfl
  have hlt : listTruthy e.associate = true := by
    rw [hAssoc]
    rcases l with _ | ⟨p, ps⟩
    · simp at hLen
    · simp [listTruthy]
  have hlen : ¬((e.associate.getD []).length < 2) := by
    rw [hAssoc]
    simp only [Option.getD_some]
    omega
  have hexB : jvIsExempt e = true := by simp [jvIsExempt, hEx]
  have hga : orgAcnTruthy e.organisation = false := by
    rw [hOrg]
    simp [orgAcnTruthy, hAcn]
  have hii : e.individual.isSome = false := by rw [hInd]; rfl
  have hred : jvChecks e =
      (match jv_exempt_partner_check 0 l with
        | .error err => .error err
        | .ok _ => validate_partners_with_dynamic_classification e "JV") := by
    unfold jvChecks
    simp only [hOrgSome, hlt, Bool.not_true, Bool.false_eq_true, if_false]
    rw [if_neg hlen]
    simp only [hNoAbn, hexB, Bool.not_false, Bool.not_true, Bool.and_false,
      Bool.false_and, Bool.false_eq_true, if_false, Bool.true_and, Bool.and_true]
    simp only [hga, hii, Bool.false_eq_true, if_false, if_true, hAssoc,
      Option.getD_some]
  have howner : owner_type_checks e = jvChecks e := by
    unfold owner_type_checks
    rw [hT]
  constructor
  · intro l1 p l2 hl h1 hp
    subst hl
    unfold BusinessEntityLodgeType.validate_owner_type_conditional_rules
    rw [except_map_error_iff, howner, hred,
      jv_exempt_partner_check_first 0 l1 p l2 h1 hp]
    norm_num
  · intro hall
    have hchk : jv_exempt_partner_check 0 l = .ok () :=
      jv_exempt_partner_check_ok 0 l hall
    refine ⟨hchk, ?_⟩
    intro i hcon
    have hh : jvChecks e = .error (.JV_EXEMPT_PARTNER_ABN i) := by
      rw [← howner]
      exact (except_map_error_iff _ _ _).mp hcon
    rw [hred, hchk] at hh
    simp only [] at hh
    unfold validate_partners_with_dynamic_classification at hh
    rw [hAssoc] at hh
    obtain ⟨j, inner, hji⟩ := validate_partners_loop_error _ _ _ _ hh
    simp at hji

/-- Sample associate lacking an ABN. -/
def pNoAbnC4 : AssociateLodgeType := { abrEntity := {}, individual := some indJane }

/-- Sample ABN-exempt JV record whose first partner lacks an ABN. -/
def jvC4 : BusinessEntityLodgeType :=
  { ownerType := .JV, organisation := some orgPlain, abnExemption := some true,
    associate := some [pNoAbnC4, partnerInd] }

/-- Sample ABN-exempt JV record whose partners all carry ABNs. -/
def jvC4All : BusinessEntityLodgeType :=
  { ownerType := .JV, organisation := some orgPlain, abnExemption := some true,
    associate := some [partnerInd, partnerInd] }

/-- Claim C4 witness: the first partner lacking an ABN is reported at index
1; with every partner carrying an ABN the check passes and the code is
never raised. -/
theorem C4_witness :
    jvC4.validate_owner_type_conditional_rules
      = .error (.JV_EXEMPT_PARTNER_ABN 1) ∧
    jv_exempt_partner_check 0 [partnerInd, partnerInd] = .ok () ∧
    ∀ i, jvC4All.validate_owner_type_conditional_rules ≠
      .error (.JV_EXEMPT_PARTNER_ABN i) :=
  ⟨(C4_jv_exempt_partner_abn jvC4 orgPlain [pNoAbnC4, partnerInd] rfl rfl
      (by decide) rfl rfl (by decide) (by decide) rfl).1
      [] pNoAbnC4 [partnerInd] rfl (by intro q hq; simp at hq) rfl,
    ((C4_jv_exempt_partner_abn jvC4All orgPlain [partnerInd, partnerInd] rfl rfl
      (by decide) rfl rfl (by decide) (by decide) rfl).2 (by decide)).1,
    ((C4_jv_exempt_partner_abn jvC4All orgPlain [partnerInd, partnerInd] rfl rfl
      (by decide) rfl rfl (by decide) (by decide) rfl).2 (by decide)).2⟩

/-- Claim C5: for a PTSH record satisfying every other partnership rule
(ABR entity, organisation without ACN, no individual, valid partners,
passing cross-field checks), full validation succeeds exactly when the
associate list has between 1 and 9 entries; 10 or more raise
`PTSH_MAX_PARTNERS`, and an empty or absent list raises
`PTSH_PARTNERS_REQUIRED`. -/
theorem C5_ptsh_partner_count (e : BusinessEntityLodgeType) (abr : AbrEntity)
    (org : OrganisationLodgeType)
    (hT : e.ownerType = .PTSH) (hAbr : e.abrEntity = some abr)
    (hOrg : e.organisation = some org) (hInd : e.individual = none)
    (hAcn : strTruthy org.acn = false)
    (hPartners : ∀ l, e.associate = some l → ∀ p ∈ l, p.model_validate = .ok p)
    (hCross : e.validate_cross_field_relationships = .ok e) :
    (e.model_validate = .ok e ↔
      ∃ l, e.associate = some l ∧ 1 ≤ l.length ∧ l.length ≤ 9) ∧
    (∀ l, e.associate = some l → 10 ≤ l.length →
      e.model_validate = .error .PTSH_MAX_PARTNERS) ∧
    ((e.associate = none ∨ e.associate = some []) →
      e.model_validate = .error .PTSH_PARTNERS_REQUIRED) := by
  have hAbrSome : e.abrEntity.isSome = true := by rw [hAbr]; rfl
  have hOrgSome : e.organisation.isSome = true := by rw [hOrg]; rfl
  have hii : e.individual.isSome = false := by rw [hInd]; rfl
  have hga : orgAcnTruthy e.organisation = false := by
    rw [hOrg]
    simp [orgAcnTruthy, hAcn]
  have hok : ∀ l, e.associate = some l → 1 ≤ l.length → l.length ≤ 9 →
      e.model_validate = .ok e := by
    intro l hl h1 h9
    have hlt : listTruthy e.associate = true := by
      rw [hl]
      rcases l with _ | ⟨p, ps⟩
      · simp at h1
      · simp [listTruthy]
    have hnested : associates_nested_checks (e.associate.getD []) = .ok () := by
      rw [hl]
      simp only [Option.getD_some]
      exact associates_nested_checks_ok l (hPartners l hl)
    have hchecks : owner_type_checks e = .ok () := by
      unfold owner_type_checks
      rw [hT]
      simp only []
      unfold ptshChecks
      simp only [hAbrSome, hOrgSome, hlt, Bool.not_true, Bool.false_eq_true, if_false]
      rw [if_neg (show ¬(9 < (e.associate.getD []).length) from by
        rw [hl]; simp only [Option.getD_some]; omega)]
      simp only [hii, hga, Bool.false_eq_true, if_false]
      unfold validate_partners_with_dynamic_classification
      rw [hl]
      exact validate_partners_loop_ok "PTSH" 0 l (hPartners l hl)
    have hrules : e.validate_owner_type_conditional_rules = .ok e := by
      unfold BusinessEntityLodgeType.validate_owner_type_conditional_rules
      rw [hchecks]
      rfl
    unfold BusinessEntityLodgeType.model_validate
    rw [hnested]
    simp only []
    rw [hrules]
    simp only []
    exact hCross
  have hfail0 : (e.associate = none ∨ e.associate = some []) →
      e.model_validate = .error .PTSH_PARTNERS_REQUIRED := by
    intro hcase
    have hlt : listTruthy e.associate = false := by
      rcases hcase with hcase | hcase <;> simp [hcase, listTruthy]
    have hnested : associates_nested_checks (e.associate.getD []) = .ok () := by
      rcases hcase with hcase | hcase <;>
        simp [hcase, associates_nested_checks]
    have hchecks : owner_type_checks e = .error .PTSH_PARTNERS_REQUIRED := by
      unfold owner_type_checks
      rw [hT]
      simp only []
      unfold ptshChecks
      simp only [hAbrSome, hOrgSome, hlt, Bool.not_true, Bool.not_false,
        Bool.false_eq_true, if_false, if_true]
    unfold BusinessEntityLodgeType.model_validate
    rw [hnested]
    simp only []
    unfold BusinessEntityLodgeType.validate_owner_type_conditional_rules
    rw [hchecks]
    rfl
  have hfail10 : ∀ l, e.associate = some l → 10 ≤ l.length →
      e.model_validate = .error .PTSH_MAX_PARTNERS := by
    intro l hl h10
    have hlt : listTruthy e.associate = true := by
      rw [hl]
      rcases l with _ | ⟨p, ps⟩
      · simp at h10
      · simp [listTruthy]
    have hnested : associates_nested_checks (e.associate.getD []) = .ok () := by
      rw [hl]
      simp only [Option.getD_some]
      exact associates_nested_checks_ok l (hPartners l hl)
    have hchecks : owner_type_checks e = .error .PTSH_MAX_PARTNERS := by
      unfold owner_type_checks
      rw [hT]
      simp only []
      unfold ptshChecks
      simp only [hAbrSome, hOrgSome, hlt, Bool.not_true, Bool.false_eq_true, if_false]
      rw [if_pos (show 9 < (e.associate.getD []).length from by
        rw [hl]; simp only [Option.getD_some]; omega)]
    unfold BusinessEntityLodgeType.model_validate
    rw [hnested]
    simp only []
    unfold BusinessEntityLodgeType.validate_owner_type_conditional_rules
    rw [hchecks]
    rfl
  refine ⟨?_, hfail10, hfail0⟩
  constructor
  · intro hv
    cases hassoc : e.associate with
    | none =>
      rw [hfail0 (Or.inl hassoc)] at hv
      simp at hv
    | some l =>
      rcases l with _ | ⟨p, ps⟩
      · rw [hfail0 (Or.inr hassoc)] at hv
        simp at hv
      · by_cases h10 : 10 ≤ (p :: ps).length
        · rw [hfail10 (p :: ps) hassoc h10] at hv
          simp at hv
        · exact ⟨p :: ps, hassoc ▸ rfl, by simp, by omega⟩
  · rintro ⟨l, hl, h1, h9⟩
    exact hok l hl h1 h9

/-- Sample partnership record with nine valid individual partners. -/
def ptshC5 : BusinessEntityLodgeType :=
  { ownerType := .PTSH, abrEntity := some abrAbn, organisation := some orgPlain,
    associate := some (List.replicate 9 partnerInd) }

/-- Claim C5 witness: nine partners accepted, ten rejected with
`PTSH_MAX_PARTNERS`, an empty list rejected with
`PTSH_PARTNERS_REQUIRED`. -/
theorem C5_witness :
    ptshC5.model_validate = .ok ptshC5 ∧
    ({ ptshC5 with associate := some (List.replicate 10 partnerInd) } :
        BusinessEntityLodgeType).model_validate = .error .PTSH_MAX_PARTNERS ∧
    ({ ptshC5 with associate := some [] } :
        BusinessEntityLodgeType).model_validate = .error .PTSH_PARTNERS_REQUIRED :=
  ⟨(C5_ptsh_partner_count ptshC5 abrAbn orgPlain rfl rfl rfl rfl (by decide)
      (by intro l hl; injection hl with hl2; subst hl2; decide)
      (by decide)).1.mpr ⟨List.replicate 9 partnerInd, rfl, by decide, by decide⟩,
    (C5_ptsh_partner_count { ptshC5 with associate := some (List.replicate 10 partnerInd) }
      abrAbn orgPlain rfl rfl rfl rfl (by decide)
      (by intro l hl; injection hl with hl2; subst hl2; decide)
      (by decide)).2.1 (List.replicate 10 partnerInd) rfl (by decide),
    (C5_ptsh_partner_count { ptshC5 with associate := some [] }
      abrAbn orgPlain rfl rfl rfl rfl (by decide)
      (by intro l hl; injection hl with hl2; subst hl2; decide)
      (by decide)).2.2 (Or.inr rfl)⟩
